import Mathlib

/-!
Shallow embedding of the tcp-test crate (src/lib.rs), a test utility that
hands out pairs of connected TCP streams.

The functional definitions model the sequential entry points (`listen_on`,
`channel_on`, `channel`, `read_assert`) and the two background thread loops
together with their error-escalation wrappers.  A labelled small-step
relation (`Step` / `Reach`) models the interleaved execution of the listener
thread, the channel thread and the caller threads around the two
condition-variable protected `Mutex<Option<_>>` slots.
-/

namespace TcpTest

/-- An IPv4 socket address (four octets and a port), as in
`std::net::SocketAddrV4`. -/
structure SocketAddr where
  a : Nat
  b : Nat
  c : Nat
  d : Nat
  port : Nat
deriving DecidableEq, Repr

/-- `DEFAULT_ADDRESS` from lib.rs: `127.0.0.1:31398`. -/
def DEFAULT_ADDRESS : SocketAddr := { a := 127, b := 0, c := 0, d := 1, port := 31398 }

/-- A value implementing `ToSocketAddrs`: calling `to_socket_addrs()` either
errors, or yields a finite list of candidate addresses (possibly empty).
A plain `SocketAddr` resolves to the one-element list holding itself. -/
inductive AddrSpec where
  | ok (candidates : List SocketAddr)
  | err
deriving DecidableEq, Repr

/-- The `ToSocketAddrs` implementation of `SocketAddr` itself: resolution
never fails and yields exactly the address. -/
def addrSpecOf (a : SocketAddr) : AddrSpec := .ok [a]

/-- The panics that can be raised on the calling thread inside the
`SPAWN_SERVER.call_once` closure of `listen_on`, plus the poisoned-`Once`
state a later caller observes after such a panic. -/
inductive InitError where
  | resolveError
  | emptyResolution
  | bindError
  | oncePoisoned
deriving DecidableEq, Repr

/-- Both failure modes of address resolution (the resolution mechanism
erroring, and an empty candidate iterator) count as resolution errors;
`bindError` and `oncePoisoned` do not. -/
def InitError.isResolution : InitError → Bool
  | .resolveError => true
  | .emptyResolution => true
  | _ => false

/-- Address resolution as performed at the top of the `call_once` closure in
`listen_on`: `address.to_socket_addrs().expect(..).next().expect(..)`.
The first `expect` fires when the resolution mechanism errors, the second
when the candidate iterator is empty; otherwise the first candidate is
taken. -/
def resolve (spec : AddrSpec) : Except InitError SocketAddr :=
  match spec with
  | .err => .error .resolveError
  | .ok [] => .error .emptyResolution
  | .ok (a :: _) => .ok a

/-- The two background threads spawned by `listen_on`: the
"tcp-test listener thread" (running `listener_thread`) and the
"tcp-test channel thread" (running `channel_thread`). -/
inductive ThreadRole where
  | listenerThread
  | channelThread
deriving DecidableEq, Repr

/-- The process-wide singleton state touched by `listen_on`:
whether the `SPAWN_SERVER : Once` has completed (and, if so, with which
resolved address the listener was bound), whether it was poisoned by a
panicking first call, and which background threads have been spawned. -/
structure GlobalState where
  listening : Option SocketAddr
  poisoned : Bool
  threads : List ThreadRole
deriving DecidableEq, Repr

/-- The fresh state of the process: `SPAWN_SERVER` never run, no threads. -/
def freshGlobal : GlobalState := { listening := none, poisoned := false, threads := [] }

/-- `listen_on` from lib.rs.  `bindOk` is the host-stack environment saying
whether `TcpListener::bind` succeeds on a given address.  The `call_once`
body runs only when the `Once` has neither completed nor been poisoned; it
resolves the address (taking the first candidate), binds the listener and
spawns the listener thread and the channel thread.  A panic inside the body
(resolution or bind failure) is reported as `some e` on the caller's own
thread and poisons the `Once`.  When the `Once` has already completed the
call returns immediately without touching the supplied address. -/
def listen_on (bindOk : SocketAddr → Bool) (spec : AddrSpec) (st : GlobalState) :
    GlobalState × Option InitError :=
  match st.listening with
  | some _ => (st, none)
  | none =>
    if st.poisoned then (st, some .oncePoisoned)
    else
      match resolve spec with
      | .error e => ({ st with poisoned := true }, some e)
      | .ok address =>
        if bindOk address then
          ({ listening := some address
             poisoned := false
             threads := st.threads ++ [.listenerThread, .channelThread] }, none)
        else ({ st with poisoned := true }, some .bindError)

/-- Which end of a connection a `TcpStream` value is. -/
inductive Role where
  | initiator
  | acceptor
deriving DecidableEq, Repr

/-- A `TcpStream`, identified by its role (connected out via
`TcpStream::connect`, or returned by the listener's `accept`) and the index
of the connection it belongs to. -/
structure Stream where
  role : Role
  id : Nat
deriving DecidableEq, Repr

/-- The caller-visible process state for `channel_on`: the singleton
initialisation state plus the `STREAM` delivery slot
(`Mutex<Option<(TcpStream, TcpStream)>>`). -/
structure ProcState where
  glob : GlobalState
  slot : Option (Stream × Stream)
deriving DecidableEq, Repr

/-- Outcome of one `channel_on` call on the calling thread. -/
inductive CallOutcome where
  | ok (pair : Stream × Stream) (st : ProcState)
  | blocked (st : ProcState)
  | panicked (e : InitError)
deriving DecidableEq, Repr

/-- `channel_on` from lib.rs: run `listen_on` (a panic there propagates on
the caller's thread), then lock `STREAM`; if the slot holds a pair, take it
with `mem::replace(&mut *buf, None)` and return it; while the slot is empty
the caller waits on the condition variable (`blocked`). -/
def channel_on (bindOk : SocketAddr → Bool) (spec : AddrSpec) (st : ProcState) :
    CallOutcome :=
  match listen_on bindOk spec st.glob with
  | (_, some e) => .panicked e
  | (g, none) =>
    match st.slot with
    | some p => .ok p { glob := g, slot := none }
    | none => .blocked { glob := g, slot := none }

/-- `channel` from lib.rs: `channel_on(*DEFAULT_ADDRESS)`. -/
def channel (bindOk : SocketAddr → Bool) (st : ProcState) : CallOutcome :=
  channel_on bindOk (addrSpecOf DEFAULT_ADDRESS) st

/-- `Read::read_exact` on a resource holding a finite list of bytes: fills an
`n`-byte buffer when at least `n` bytes are available, otherwise errors. -/
def read_exact (resource : List Nat) (n : Nat) : Option (List Nat) :=
  if n ≤ resource.length then some (resource.take n) else none

/-- Outcome of one `read_assert!` invocation. -/
inductive AssertOutcome where
  | passed
  | assertFailed
  | panicked
deriving DecidableEq, Repr

/-- The `read_assert!` macro from lib.rs: read exactly `n` bytes from the
resource into a fresh buffer (`.expect(..)` panics when `read_exact` errors),
then `assert_eq!` the buffer against the expected bytes.  The second
component is the resource after the call (the bytes consumed from it). -/
def read_assert (resource : List Nat) (n : Nat) (expected : List Nat) :
    AssertOutcome × List Nat :=
  match read_exact resource n with
  | none => (.panicked, resource.drop n)
  | some buf => (if buf = expected then .passed else .assertFailed, resource.drop n)

/-- How an internal error escapes a background thread, per the `map_err`
closures in `listen_on`: either the whole process exits with the given code,
or the thread panics (`only_panic` feature). -/
inductive Escalation where
  | exited (code : Nat)
  | panicked
deriving DecidableEq, Repr

/-- The `map_err` closure wrapped around both thread bodies in `listen_on`:
with the `only_panic` feature it panics, otherwise it prints the error and
calls `process::exit(1)`. -/
def thread_wrapper (only_panic : Bool) (_e : String) : Escalation :=
  if only_panic then .panicked else .exited 1

/-- The `channel_thread` loop viewed through the results of its successive
`TcpStream::connect` calls (`script`), starting at connection index `i`:
each successful connect completes one iteration and deposits one pair
(recorded by its connection index); the `?` operator on a failed connect
returns the error, ending the loop.  An exhausted script means the loop is
still running (`none`). -/
def channel_thread_run (i : Nat) : List (Except String Unit) → List Nat × Option String
  | [] => ([], none)
  | .ok _ :: rest =>
    let r := channel_thread_run (i + 1) rest
    (i :: r.1, r.2)
  | .error e :: _ => ([], some e)

/-- The `listener_thread` loop viewed through the results of its successive
`listener.incoming()` accepts: each successful accept stores one accepted
stream (recorded by its connection index); `let i = i?` on a failed accept
returns the error, ending the loop. -/
def listener_thread_run (i : Nat) : List (Except String Unit) → List Nat × Option String
  | [] => ([], none)
  | .ok _ :: rest =>
    let r := listener_thread_run (i + 1) rest
    (i :: r.1, r.2)
  | .error e :: _ => ([], some e)

/-- The channel thread as spawned by `listen_on`: the loop, with any error it
returns fed to the escalation wrapper. -/
def channel_thread (only_panic : Bool) (script : List (Except String Unit)) :
    List Nat × Option Escalation :=
  let r := channel_thread_run 0 script
  (r.1, Option.map (thread_wrapper only_panic) r.2)

/-- The listener thread as spawned by `listen_on`: the loop, with any error
it returns fed to the escalation wrapper. -/
def listener_thread (only_panic : Bool) (script : List (Except String Unit)) :
    List Nat × Option Escalation :=
  let r := listener_thread_run 0 script
  (r.1, Option.map (thread_wrapper only_panic) r.2)

/-- Program counter of the channel thread inside its loop: about to call
`TcpStream::connect`; holding the freshly connected local stream and waiting
for the listener thread's slot to be populated; or holding both streams and
waiting for the `STREAM` delivery slot to be empty. -/
inductive WorkerPC where
  | atConnect
  | awaitRemote (l : Stream)
  | awaitSlot (l : Stream) (r : Stream)
deriving DecidableEq, Repr

/-- Program counter of the listener thread inside its `incoming()` loop:
about to accept, or holding an accepted stream and waiting for its slot
(`buf`) to be empty. -/
inductive ListenerPC where
  | atAccept
  | awaitBufEmpty (r : Stream)
deriving DecidableEq, Repr

/-- Which thread performs a step. -/
inductive Agent where
  | channelThread
  | listenerThread
  | caller
deriving DecidableEq, Repr

/-- The atomic actions of the system.  `connect` and `acceptConn` are the
socket-level operations; `storeRemote`, `takeRemote` and `deposit` are the
condvar-protected slot operations of the two background threads; `request`
(a caller arrives in `channel_on` wanting a pair) and `take` (a caller takes
the pair from `STREAM`) are the caller-side operations. -/
inductive Action where
  | connect
  | acceptConn
  | storeRemote
  | takeRemote
  | deposit
  | request
  | take
deriving DecidableEq, Repr

/-- Joint state of the two background threads, the two shared slots, and the
callers.  `lbuf` is the `Mutex<Option<TcpStream>>` between listener thread
and channel thread; `slot` is the `STREAM` delivery slot.  `conns` counts
connects issued, `accepts` counts accepts completed.  `requests` (pending
callers waiting in `channel_on`) and `reqTotal` (callers that ever arrived)
and `taken` (pairs handed to callers, in take order) are ghost fields that
record observable history without influencing the thread code. -/
structure Sys where
  worker : WorkerPC
  listener : ListenerPC
  lbuf : Option Stream
  slot : Option (Stream × Stream)
  conns : Nat
  accepts : Nat
  requests : Nat
  reqTotal : Nat
  taken : List (Stream × Stream)
deriving DecidableEq, Repr

/-- The state right after `listen_on` has spawned both threads: both loops
at their heads, both slots empty, nothing connected, no callers yet. -/
def initSys : Sys :=
  { worker := .atConnect
    listener := .atAccept
    lbuf := none
    slot := none
    conns := 0
    accepts := 0
    requests := 0
    reqTotal := 0
    taken := [] }

/-- One atomic step of the system, labelled with the acting thread and its
action.  Each constructor is one lock-protected section of lib.rs:
`connect` is `TcpStream::connect(address)?` in `channel_thread`;
`acceptConn` is one `listener.incoming()` accept (enabled once a connect has
been issued); `storeRemote` is the listener thread waiting for `buf` to be
`None` and storing the accepted stream; `takeRemote` is the channel thread
waiting for `buf` to be `Some` and `mem::replace`-ing it to `None`;
`deposit` is the channel thread waiting for `STREAM` to be `None` and
storing the pair `(local, remote)`; `request` is a caller entering
`channel_on`; `take` is a waiting caller finding `STREAM` populated and
`mem::replace`-ing it to `None`. -/
inductive Step : Sys → Agent → Action → Sys → Prop where
  | connect {s : Sys} (h : s.worker = .atConnect) :
      Step s .channelThread .connect
        { s with worker := .awaitRemote { role := .initiator, id := s.conns }
                 conns := s.conns + 1 }
  | acceptConn {s : Sys} (h : s.listener = .atAccept) (hc : s.accepts < s.conns) :
      Step s .listenerThread .acceptConn
        { s with listener := .awaitBufEmpty { role := .acceptor, id := s.accepts }
                 accepts := s.accepts + 1 }
  | storeRemote {s : Sys} {r : Stream} (h : s.listener = .awaitBufEmpty r)
      (hb : s.lbuf = none) :
      Step s .listenerThread .storeRemote
        { s with listener := .atAccept, lbuf := some r }
  | takeRemote {s : Sys} {l r : Stream} (h : s.worker = .awaitRemote l)
      (hb : s.lbuf = some r) :
      Step s .channelThread .takeRemote
        { s with worker := .awaitSlot l r, lbuf := none }
  | deposit {s : Sys} {l r : Stream} (h : s.worker = .awaitSlot l r)
      (hs : s.slot = none) :
      Step s .channelThread .deposit
        { s with worker := .atConnect, slot := some (l, r) }
  | request {s : Sys} :
      Step s .caller .request
        { s with requests := s.requests + 1, reqTotal := s.reqTotal + 1 }
  | take {s : Sys} {p : Stream × Stream} (h : s.slot = some p)
      (hr : 0 < s.requests) :
      Step s .caller .take
        { s with slot := none
                 requests := s.requests - 1
                 taken := s.taken ++ [p] }

/-- States reachable from the post-`listen_on` initial state. -/
inductive Reach : Sys → Prop where
  | init : Reach initSys
  | step {s : Sys} {a : Agent} {act : Action} {s' : Sys} :
      Reach s → Step s a act s' → Reach s'

/-- The connection index the channel thread is currently holding, if any. -/
def workerHeld : WorkerPC → List Nat
  | .atConnect => []
  | .awaitRemote l => [l.id]
  | .awaitSlot l _ => [l.id]

/-- The connection index of the pair in the `STREAM` slot, if any. -/
def slotIds : Option (Stream × Stream) → List Nat
  | none => []
  | some p => [p.1.id]

/-- The production pipeline of the system, oldest first: connection indices
of the pairs already taken by callers, then of the pair in the delivery
slot, then of the connection the channel thread is working on. -/
def pipeline (s : Sys) : List Nat :=
  s.taken.map (fun p => p.1.id) ++ slotIds s.slot ++ workerHeld s.worker

/-- Every step either leaves the pipeline and the connect counter unchanged,
or (a `connect`) appends the fresh connection index and bumps the counter. -/
theorem step_pipeline {s : Sys} {a : Agent} {act : Action} {s' : Sys}
    (hst : Step s a act s') :
    (pipeline s' = pipeline s ∧ s'.conns = s.conns) ∨
    (pipeline s' = pipeline s ++ [s.conns] ∧ s'.conns = s.conns + 1) := by
  cases hst with
  | connect h => right; simp [pipeline, workerHeld, h]
  | acceptConn h hc => left; simp [pipeline]
  | storeRemote h hb => left; simp [pipeline]
  | takeRemote h hb => left; simp [pipeline, workerHeld, h]
  | deposit h hs => left; simp [pipeline, workerHeld, slotIds, h, hs]
  | request => left; simp [pipeline]
  | take h hr => left; simp [pipeline, slotIds, h]

/-- Invariant: the pipeline is strictly increasing and every index in it is
below the connect counter. -/
def PipelineInv (s : Sys) : Prop :=
  s.conns = (pipeline s).length ∧
  List.Pairwise (fun i j => i < j) (pipeline s) ∧
  ∀ i ∈ pipeline s, i < s.conns

theorem pipelineInv_init : PipelineInv initSys := by
  constructor
  · rfl
  · constructor
    · simp [pipeline, initSys, workerHeld, slotIds]
    · intro i hi
      simp [pipeline, initSys, workerHeld, slotIds] at hi

theorem pipelineInv_step {s : Sys} {a : Agent} {act : Action} {s' : Sys}
    (hst : Step s a act s') (hinv : PipelineInv s) : PipelineInv s' := by
  obtain ⟨hlen, hsort, hbound⟩ := hinv
  rcases step_pipeline hst with ⟨hp, hc⟩ | ⟨hp, hc⟩
  · exact ⟨by rw [hp, hc, hlen], by rw [hp]; exact hsort, by
      intro i hi
      rw [hp] at hi
      rw [hc]
      exact hbound i hi⟩
  · refine ⟨by rw [hp, hc, hlen]; simp, ?_, ?_⟩
    · rw [hp, List.pairwise_append]
      refine ⟨hsort, List.pairwise_singleton _ _, ?_⟩
      intro i hi j hj
      rw [List.mem_singleton] at hj
      subst hj
      exact hbound i hi
    · intro i hi
      rw [hp, List.mem_append] at hi
      rw [hc]
      rcases hi with hi | hi
      · exact Nat.lt_succ_of_lt (hbound i hi)
      · rw [List.mem_singleton] at hi
        subst hi
        exact Nat.lt_succ_self _

theorem pipelineInv_reach {s : Sys} (h : Reach s) : PipelineInv s := by
  induction h with
  | init => exact pipelineInv_init
  | step _ hst ih => exact pipelineInv_step hst ih

/-- A pair is stored in `(initiator, acceptor)` order: the first component
was created by `TcpStream::connect`, the second was returned by `accept`. -/
def orderedPair (p : Stream × Stream) : Prop :=
  p.1.role = .initiator ∧ p.2.role = .acceptor

/-- Invariant: every stream flowing through the system carries the role of
the socket call that created it — the channel thread's local stream is an
initiator, everything in the listener thread's hands and its slot is an
acceptor, and every pair in the delivery slot or already taken is ordered
`(initiator, acceptor)`. -/
def RolesInv (s : Sys) : Prop :=
  (∀ l, s.worker = .awaitRemote l → l.role = .initiator) ∧
  (∀ l r, s.worker = .awaitSlot l r → l.role = .initiator ∧ r.role = .acceptor) ∧
  (∀ r, s.lbuf = some r → r.role = .acceptor) ∧
  (∀ r, s.listener = .awaitBufEmpty r → r.role = .acceptor) ∧
  (∀ p, s.slot = some p → orderedPair p) ∧
  (∀ p ∈ s.taken, orderedPair p)

theorem rolesInv_init : RolesInv initSys := by
  refine ⟨?_, ?_, ?_, ?_, ?_, ?_⟩ <;> simp [initSys]

theorem rolesInv_step {s : Sys} {a : Agent} {act : Action} {s' : Sys}
    (hst : Step s a act s') (hinv : RolesInv s) : RolesInv s' := by
  obtain ⟨hwr, hws, hlb, hls, hsl, htk⟩ := hinv
  cases hst with
  | connect h =>
    refine ⟨?_, ?_, hlb, hls, hsl, htk⟩
    · intro l hl
      injection hl with h1
      subst h1
      rfl
    · intro l r hlr
      exact absurd hlr (by simp)
  | acceptConn h hc =>
    refine ⟨hwr, hws, hlb, ?_, hsl, htk⟩
    intro r hr2
    injection hr2 with h1
    subst h1
    rfl
  | storeRemote h hb =>
    refine ⟨hwr, hws, ?_, ?_, hsl, htk⟩
    · intro r' hr2
      injection hr2 with h1
      subst h1
      exact hls _ h
    · intro r' hr2
      exact absurd hr2 (by simp)
  | takeRemote h hb =>
    refine ⟨?_, ?_, ?_, hls, hsl, htk⟩
    · intro l' hl
      exact absurd hl (by simp)
    · intro l' r' hlr
      injection hlr with h1 h2
      subst h1
      subst h2
      exact ⟨hwr _ h, hlb _ hb⟩
    · intro r' hr2
      exact absurd hr2 (by simp)
  | deposit h hs =>
    refine ⟨?_, ?_, hlb, hls, ?_, htk⟩
    · intro l' hl
      exact absurd hl (by simp)
    · intro l' r' hlr
      exact absurd hlr (by simp)
    · intro p hp
      injection hp with h1
      subst h1
      exact hws _ _ h
  | request =>
    exact ⟨hwr, hws, hlb, hls, hsl, htk⟩
  | take h hr =>
    refine ⟨hwr, hws, hlb, hls, ?_, ?_⟩
    · intro p hp
      exact absurd hp (by simp)
    · intro q hq
      rw [List.mem_append, List.mem_singleton] at hq
      rcases hq with hq | hq
      · exact htk q hq
      · subst hq
        exact hsl _ h

theorem rolesInv_reach {s : Sys} (h : Reach s) : RolesInv s := by
  induction h with
  | init => exact rolesInv_init
  | step _ hst ih => exact rolesInv_step hst ih

/-- The first connection's pair, in the order `channel_thread` stores it. -/
def pair0 : Stream × Stream :=
  ({ role := .initiator, id := 0 }, { role := .acceptor, id := 0 })

/-- The second connection's pair. -/
def pair1 : Stream × Stream :=
  ({ role := .initiator, id := 1 }, { role := .acceptor, id := 1 })

/-- State after one caller has requested, the first connection has been made
and delivered, and the caller has taken it. -/
def stateA : Sys :=
  { worker := .atConnect
    listener := .atAccept
    lbuf := none
    slot := none
    conns := 1
    accepts := 1
    requests := 0
    reqTotal := 1
    taken := [pair0] }

theorem reach_stateA : Reach stateA := by
  have h0 := Reach.init
  have h1 := Reach.step h0 Step.request
  have h2 := Reach.step h1 (Step.connect rfl)
  have h3 := Reach.step h2 (Step.acceptConn rfl (by decide))
  have h4 := Reach.step h3 (Step.storeRemote rfl rfl)
  have h5 := Reach.step h4 (Step.takeRemote rfl rfl)
  have h6 := Reach.step h5 (Step.deposit rfl rfl)
  have h7 := Reach.step h6 (Step.take rfl (by decide))
  exact h7

/-- State after a single caller request: the first pair has been taken, the
worker has already produced and deposited a second pair, and both loops are
back at their heads — with no further request ever signalled. -/
def stateB : Sys :=
  { worker := .atConnect
    listener := .atAccept
    lbuf := none
    slot := some pair1
    conns := 2
    accepts := 2
    requests := 0
    reqTotal := 1
    taken := [pair0] }

/-- `stateB` after the worker starts a third connection — still with only
one request ever signalled and none pending. -/
def stateB' : Sys :=
  { stateB with worker := .awaitRemote { role := .initiator, id := 2 }
                conns := 3 }

theorem reach_stateB : Reach stateB := by
  have h0 := Reach.init
  have h1 := Reach.step h0 Step.request
  have h2 := Reach.step h1 (Step.connect rfl)
  have h3 := Reach.step h2 (Step.acceptConn rfl (by decide))
  have h4 := Reach.step h3 (Step.storeRemote rfl rfl)
  have h5 := Reach.step h4 (Step.takeRemote rfl rfl)
  have h6 := Reach.step h5 (Step.deposit rfl rfl)
  have h7 := Reach.step h6 (Step.connect rfl)
  have h8 := Reach.step h7 (Step.take rfl (by decide))
  have h9 := Reach.step h8 (Step.acceptConn rfl (by decide))
  have h10 := Reach.step h9 (Step.storeRemote rfl rfl)
  have h11 := Reach.step h10 (Step.takeRemote rfl rfl)
  have h12 := Reach.step h11 (Step.deposit rfl rfl)
  exact h12

theorem channel_thread_run_spec (k : Nat) (e : String)
    (post : List (Except String Unit)) :
    ∀ i : Nat, channel_thread_run i (List.replicate k (.ok ()) ++ .error e :: post) =
      (List.range' i k, some e) := by
  induction k with
  | zero => intro i; simp [channel_thread_run]
  | succ n ih =>
    intro i
    rw [List.replicate_succ, List.cons_append]
    show (i :: (channel_thread_run (i + 1) _).1, (channel_thread_run (i + 1) _).2) = _
    rw [ih (i + 1)]
    rfl

theorem listener_thread_run_spec (k : Nat) (e : String)
    (post : List (Except String Unit)) :
    ∀ i : Nat, listener_thread_run i (List.replicate k (.ok ()) ++ .error e :: post) =
      (List.range' i k, some e) := by
  induction k with
  | zero => intro i; simp [listener_thread_run]
  | succ n ih =>
    intro i
    rw [List.replicate_succ, List.cons_append]
    show (i :: (listener_thread_run (i + 1) _).1, (listener_thread_run (i + 1) _).2) = _
    rw [ih (i + 1)]
    rfl

/-- Claim C1: the delivery slot holds at most one completed stream pair
(it is an `Option`, and `deposit` requires it to be `None` while `take`
requires it to be `Some` and atomically clears it — both definitional in
`Step`); consequently, in every reachable state the list of pairs handed to
callers contains no duplicate: every produced pair is received by at most
one caller and no pair is ever delivered twice. -/
theorem C1_no_double_delivery (s : Sys) (h : Reach s) : s.taken.Nodup := by
  obtain ⟨-, hsort, -⟩ := pipelineInv_reach h
  have htaken : List.Pairwise (fun i j => i < j) (s.taken.map (fun p => p.1.id)) :=
    ((List.pairwise_append.mp ((List.pairwise_append.mp hsort).1)).1)
  have hnd : (s.taken.map (fun p => p.1.id)).Nodup :=
    htaken.imp (fun hlt => Nat.ne_of_lt hlt)
  exact hnd.of_map

/-- Claim C1 witness: a concrete reachable state in which one pair has been
delivered, with no duplicates. -/
theorem C1_witness : Reach stateA ∧ stateA.taken.Nodup :=
  ⟨reach_stateA, C1_no_double_delivery stateA reach_stateA⟩

/-- Claim C2 counterexample: production is not request-driven.  From the
initial state, with exactly one caller request ever signalled (`reqTotal =
1`), the system reaches `stateB` where the worker has already performed two
connect-and-accept operations; from there, with zero pending requests, the
worker's third `connect` step is enabled and taken, reaching three connects
triggered by a single request. -/
theorem C2_counterexample :
    Reach stateB ∧ stateB.reqTotal = 1 ∧ stateB.requests = 0 ∧
    stateB.conns = 2 ∧ stateB.accepts = 2 ∧
    Step stateB .channelThread .connect stateB' ∧
    stateB'.conns = 3 ∧ stateB'.reqTotal = 1 :=
  ⟨reach_stateB, rfl, rfl, rfl, rfl, Step.connect rfl, rfl, rfl⟩

/-- Claim C2 amended: pair production is not gated on caller request
signals — the worker connects eagerly, running ahead of requests (a
connect-and-accept can occur with no request ever signalled or pending, per
the counterexample).  What does hold: each worker loop iteration performs
exactly one connect, so in every reachable state the connects issued are
exactly the pairs already taken plus the pair in the delivery slot plus the
connection in the worker's hands; hence delivery never exceeds production
and production runs at most two connections ahead of delivery. -/
theorem C2_production_accounting (s : Sys) (h : Reach s) :
    s.conns = s.taken.length + (slotIds s.slot).length + (workerHeld s.worker).length ∧
    s.taken.length ≤ s.conns ∧ s.conns ≤ s.taken.length + 2 := by
  obtain ⟨hlen, -, -⟩ := pipelineInv_reach h
  have hp : s.conns =
      s.taken.length + (slotIds s.slot).length + (workerHeld s.worker).length := by
    rw [hlen]
    simp [pipeline, Nat.add_assoc]
  refine ⟨hp, ?_, ?_⟩
  · omega
  · have hs1 : (slotIds s.slot).length ≤ 1 := by
      cases hsl : s.slot <;> simp [slotIds]
    have hw1 : (workerHeld s.worker).length ≤ 1 := by
      cases hwk : s.worker <;> simp [workerHeld]
    omega

/-- Claim C2 witness: the production accounting evaluated in the concrete
reachable state `stateA`. -/
theorem C2_witness :
    stateA.conns = stateA.taken.length + (slotIds stateA.slot).length +
      (workerHeld stateA.worker).length ∧
    stateA.taken.length ≤ stateA.conns ∧ stateA.conns ≤ stateA.taken.length + 2 :=
  C2_production_accounting stateA reach_stateA

/-- Claim C3: initialization runs exactly once process-wide.  On the first
call (fresh state) `listen_on` resolves the address, binds the listener and
spawns the two background threads; afterwards any call — with any address
specification and any host-stack behaviour — is a no-op and the resolved
address never changes. -/
theorem C3_init_once (bindOk : SocketAddr → Bool) (spec : AddrSpec)
    (addr : SocketAddr) (hres : resolve spec = .ok addr)
    (hbind : bindOk addr = true) :
    (listen_on bindOk spec freshGlobal).2 = none ∧
    (listen_on bindOk spec freshGlobal).1.listening = some addr ∧
    (listen_on bindOk spec freshGlobal).1.threads =
      [.listenerThread, .channelThread] ∧
    ∀ (bindOk' : SocketAddr → Bool) (spec' : AddrSpec) (st : GlobalState)
      (a : SocketAddr), st.listening = some a →
        listen_on bindOk' spec' st = (st, none) := by
  refine ⟨?_, ?_, ?_, ?_⟩
  · simp [listen_on, freshGlobal, hres, hbind]
  · simp [listen_on, freshGlobal, hres, hbind]
  · simp [listen_on, freshGlobal, hres, hbind]
  · intro bindOk' spec' st a hl
    simp [listen_on, hl]

/-- Claim C3 witness: a concrete first call establishes `DEFAULT_ADDRESS`,
and a later call with a different (even unresolvable) specification and a
host stack on which every bind fails is still a no-op. -/
theorem C3_witness :
    (listen_on (fun _ => true) (addrSpecOf DEFAULT_ADDRESS) freshGlobal).1.listening =
      some DEFAULT_ADDRESS ∧
    listen_on (fun _ => false) .err
        { listening := some DEFAULT_ADDRESS
          poisoned := false
          threads := [.listenerThread, .channelThread] } =
      ({ listening := some DEFAULT_ADDRESS
         poisoned := false
         threads := [.listenerThread, .channelThread] }, none) :=
  ⟨(C3_init_once (fun _ => true) (addrSpecOf DEFAULT_ADDRESS) DEFAULT_ADDRESS rfl
      rfl).2.1,
   (C3_init_once (fun _ => true) (addrSpecOf DEFAULT_ADDRESS) DEFAULT_ADDRESS rfl
      rfl).2.2.2 (fun _ => false) .err _ DEFAULT_ADDRESS rfl⟩

/-- Claim C4: `read_assert` reads exactly `n` bytes from the resource (the
remainder is the resource with its first `n` bytes consumed); when `n` bytes
are available it passes exactly when they equal the expected buffer and
fails the assertion whenever they differ in any position; when the resource
cannot supply `n` bytes it panics. -/
theorem C4_read_assert (resource expected : List Nat) (n : Nat) :
    (read_assert resource n expected).2 = resource.drop n ∧
    (n ≤ resource.length →
      ((read_assert resource n expected).1 = .passed ↔ resource.take n = expected)) ∧
    (n ≤ resource.length → resource.take n ≠ expected →
      (read_assert resource n expected).1 = .assertFailed) ∧
    (resource.length < n → (read_assert resource n expected).1 = .panicked) := by
  refine ⟨?_, ?_, ?_, ?_⟩
  · unfold read_assert read_exact
    by_cases h : n ≤ resource.length
    · by_cases he : resource.take n = expected <;> simp [h, he]
    · simp [h]
  · intro h
    unfold read_assert read_exact
    by_cases he : resource.take n = expected <;> simp [h, he]
  · intro h he
    unfold read_assert read_exact
    simp [h, he]
  · intro h
    unfold read_assert read_exact
    simp [Nat.not_le_of_lt h]

/-- Claim C4 witness: on the concrete resource `[1, 2, 3]`, reading 3 bytes
against `[1, 2, 3]` passes, against `[1, 2, 9]` fails the assertion, and
reading 3 bytes from the two-byte resource `[1, 2]` panics. -/
theorem C4_witness :
    ((read_assert [1, 2, 3] 3 [1, 2, 3]).1 = .passed ↔ [1, 2, 3].take 3 = [1, 2, 3]) ∧
    (read_assert [1, 2, 3] 3 [1, 2, 9]).1 = .assertFailed ∧
    (read_assert [1, 2] 3 [1, 2, 3]).1 = .panicked :=
  ⟨(C4_read_assert [1, 2, 3] [1, 2, 3] 3).2.1 (by decide),
   (C4_read_assert [1, 2, 3] [1, 2, 9] 3).2.2.1 (by decide) (by decide),
   (C4_read_assert [1, 2] [1, 2, 3] 3).2.2.2 (by decide)⟩

/-- Claim C5: `channel()` behaves identically to `channel_on` applied to the
fixed default address `127.0.0.1:31398`, for every host-stack environment
and every process state. -/
theorem C5_channel_default (bindOk : SocketAddr → Bool) (st : ProcState) :
    channel bindOk st =
      channel_on bindOk
        (addrSpecOf { a := 127, b := 0, c := 0, d := 1, port := 31398 }) st := rfl

/-- Claim C6: resolution on the first call takes exactly the first candidate
yielded; when resolution yields zero candidates or the mechanism errors, the
first call fails with a resolution error, raised synchronously on the
caller's own thread — `listen_on` reports the error directly to its caller
(`channel_on` turns it into a caller-side panic) and no background thread
has been spawned. -/
theorem C6_resolution (spec : AddrSpec) :
    (∀ (a : SocketAddr) (rest : List SocketAddr),
      resolve (.ok (a :: rest)) = .ok a) ∧
    (∀ (bindOk : SocketAddr → Bool) (e : InitError), resolve spec = .error e →
      e.isResolution = true ∧
      listen_on bindOk spec freshGlobal =
        ({ freshGlobal with poisoned := true }, some e) ∧
      (listen_on bindOk spec freshGlobal).1.threads = [] ∧
      (listen_on bindOk spec freshGlobal).1.listening = none ∧
      channel_on bindOk spec { glob := freshGlobal, slot := none } = .panicked e) := by
  refine ⟨fun a rest => rfl, ?_⟩
  intro bindOk e hres
  have hclass : e.isResolution = true := by
    match spec, hres with
    | .err, hres =>
      injection hres with h1
      rw [← h1]
      rfl
    | .ok [], hres =>
      injection hres with h1
      rw [← h1]
      rfl
  refine ⟨hclass, ?_, ?_, ?_, ?_⟩
  · simp [listen_on, freshGlobal, hres]
  · simp [listen_on, freshGlobal, hres]
  · simp [listen_on, freshGlobal, hres]
  · simp [channel_on, listen_on, freshGlobal, hres]

/-- Claim C6 witness: resolution of a two-candidate list takes the first,
and a first call with an erroring specification fails synchronously with a
resolution error and spawns nothing. -/
theorem C6_witness :
    resolve (.ok [DEFAULT_ADDRESS, { a := 10, b := 0, c := 0, d := 7, port := 80 }]) =
      .ok DEFAULT_ADDRESS ∧
    InitError.isResolution .resolveError = true ∧
    listen_on (fun _ => true) .err freshGlobal =
      ({ freshGlobal with poisoned := true }, some .resolveError) ∧
    (listen_on (fun _ => true) .err freshGlobal).1.threads = [] :=
  ⟨(C6_resolution .err).1 DEFAULT_ADDRESS [{ a := 10, b := 0, c := 0, d := 7, port := 80 }],
   ((C6_resolution .err).2 (fun _ => true) .resolveError rfl).1,
   ((C6_resolution .err).2 (fun _ => true) .resolveError rfl).2.1,
   ((C6_resolution .err).2 (fun _ => true) .resolveError rfl).2.2.1⟩

/-- Claim C7: when the connect step (channel thread) or the accept step
(listener thread) fails, that thread's loop terminates — the pairs or
accepted streams it has produced are exactly those of the iterations before
the failure, and nothing after the failure in its script is ever processed —
and the failure is escalated through the wrapper: a panic under the
`only_panic` feature, an immediate `process::exit(1)` (non-zero) under the
default policy; it is never swallowed. -/
theorem C7_fatal_failure (op : Bool) (k : Nat) (e : String)
    (post : List (Except String Unit)) :
    channel_thread op (List.replicate k (.ok ()) ++ .error e :: post) =
      (List.range k, some (if op then .panicked else .exited 1)) ∧
    listener_thread op (List.replicate k (.ok ()) ++ .error e :: post) =
      (List.range k, some (if op then .panicked else .exited 1)) := by
  constructor
  · unfold channel_thread
    rw [channel_thread_run_spec k e post 0, List.range_eq_range']
    rfl
  · unfold listener_thread
    rw [listener_thread_run_spec k e post 0, List.range_eq_range']
    rfl

/-- `initSys` after the channel thread's first connect. -/
def s8a : Sys :=
  { initSys with worker := .awaitRemote { role := .initiator, id := 0 }
                 conns := 1 }

/-- `s8a` after the listener thread accepts that connection. -/
def s8b : Sys :=
  { s8a with listener := .awaitBufEmpty { role := .acceptor, id := 0 }
             accepts := 1 }

/-- Claim C8 counterexample: the socket-level work is split across two
distinct dedicated background threads, not one — `listen_on` spawns both a
listener thread and a channel thread, and in a concrete run the connect is
performed by the channel thread while the matching accept is performed by
the (distinct) listener thread. -/
theorem C8_counterexample :
    (listen_on (fun _ => true) (addrSpecOf DEFAULT_ADDRESS) freshGlobal).1.threads =
      [.listenerThread, .channelThread] ∧
    Step initSys .channelThread .connect s8a ∧
    Step s8a .listenerThread .acceptConn s8b ∧
    Agent.channelThread ≠ Agent.listenerThread :=
  ⟨rfl, Step.connect rfl, Step.acceptConn rfl (by decide), by decide⟩

/-- Claim C8 amended: exactly two dedicated background threads perform all
socket-level work for pair creation — every connect (and the channel-thread
slot operations) is performed by the channel thread and every accept (and
the listener-slot store) by the listener thread, both spawned once by
`listen_on`; caller threads never perform socket I/O for pair creation,
their only actions are signalling a request and taking a delivered pair. -/
theorem C8_two_worker_threads :
    (∀ (s : Sys) (a : Agent) (act : Action) (s' : Sys), Step s a act s' →
      ((act = .connect ∨ act = .takeRemote ∨ act = .deposit) →
        a = .channelThread) ∧
      ((act = .acceptConn ∨ act = .storeRemote) → a = .listenerThread) ∧
      (a = .caller → act = .request ∨ act = .take)) ∧
    (∀ (bindOk : SocketAddr → Bool) (spec : AddrSpec) (addr : SocketAddr),
      resolve spec = .ok addr → bindOk addr = true →
      (listen_on bindOk spec freshGlobal).1.threads =
        [.listenerThread, .channelThread]) := by
  constructor
  · intro s a act s' hst
    cases hst <;> decide
  · intro bindOk spec addr hres hbind
    simp [listen_on, freshGlobal, hres, hbind]

/-- Claim C8 witness: the amended statement instantiated — the first connect
step of a run is attributed to the channel thread, and a concrete first call
spawns exactly the listener thread and the channel thread. -/
theorem C8_witness :
    Agent.channelThread = Agent.channelThread ∧
    (listen_on (fun _ => true) (addrSpecOf DEFAULT_ADDRESS) freshGlobal).1.threads =
      [.listenerThread, .channelThread] :=
  ⟨(C8_two_worker_threads.1 initSys .channelThread .connect s8a
      (Step.connect rfl)).1 (Or.inl rfl),
   C8_two_worker_threads.2 (fun _ => true) (addrSpecOf DEFAULT_ADDRESS)
      DEFAULT_ADDRESS rfl rfl⟩

/-- Claim C9: pairs are always stored and delivered in
`(initiator, acceptor)` order — in every reachable state, every pair handed
to a caller and any pair sitting in the delivery slot has the
`TcpStream::connect` endpoint first and the accepted endpoint second. -/
theorem C9_pair_order (s : Sys) (h : Reach s) :
    (∀ p ∈ s.taken, p.1.role = .initiator ∧ p.2.role = .acceptor) ∧
    (∀ p, s.slot = some p → p.1.role = .initiator ∧ p.2.role = .acceptor) := by
  obtain ⟨-, -, -, -, hsl, htk⟩ := rolesInv_reach h
  exact ⟨fun p hp => htk p hp, fun p hp => hsl p hp⟩

/-- Claim C9 witness: the pair delivered in the concrete reachable state
`stateA` is ordered `(initiator, acceptor)`. -/
theorem C9_witness :
    pair0.1.role = Role.initiator ∧ pair0.2.role = Role.acceptor :=
  (C9_pair_order stateA reach_stateA).1 pair0 (by decide)

/-- The process state seen by a late `channel_on` caller: initialization
already completed and a pair waiting in the delivery slot. -/
def st10 : ProcState :=
  { glob := { listening := some DEFAULT_ADDRESS
              poisoned := false
              threads := [.listenerThread, .channelThread] }
    slot := some pair0 }

/-- Claim C10: once initialization has happened, `channel_on` never resolves
the supplied address specification — even a specification whose resolution
errors causes no error, the call returns the delivered pair normally, and
the outcome is identical for every supplied specification. -/
theorem C10_no_late_resolution (bindOk : SocketAddr → Bool) (spec : AddrSpec)
    (st : ProcState) (a : SocketAddr) (p : Stream × Stream) (e : InitError)
    (hinit : st.glob.listening = some a) (hslot : st.slot = some p)
    (_hres : resolve spec = .error e) :
    channel_on bindOk spec st = .ok p { glob := st.glob, slot := none } ∧
    ∀ spec' : AddrSpec, channel_on bindOk spec' st = channel_on bindOk spec st := by
  have hmain : ∀ sp : AddrSpec,
      channel_on bindOk sp st = .ok p { glob := st.glob, slot := none } := by
    intro sp
    simp [channel_on, listen_on, hinit, hslot]
  exact ⟨hmain spec, fun spec' => by rw [hmain spec', hmain spec]⟩

/-- Claim C10 witness: in a concrete initialized state with a waiting pair,
a call whose address specification cannot be resolved at all still returns
the pair. -/
theorem C10_witness :
    channel_on (fun _ => true) .err st10 = .ok pair0 { glob := st10.glob, slot := none } :=
  (C10_no_late_resolution (fun _ => true) .err st10 DEFAULT_ADDRESS pair0
    .resolveError rfl rfl rfl).1

end TcpTest
